import Mathlib

/-!
Shallow embedding of `rdnt/uinput`'s joystick binding (src/joystick.go).

The Go file drives the Linux uinput character device: construction opens a
handle, registers capabilities and codes via ioctl, records per-axis ranges
into two fixed-size tables, and activates the device; runtime operations
write fixed-layout event records followed by a synchronization event.

Kernel behaviour (whether each open / ioctl / write succeeds) is modelled by
an environment of success predicates; every operation returns the trace of
kernel calls (or written event records) it performed together with its
result. Helpers of the repository that live outside src/ (validation,
ioctl wrappers, the event encoder, `syncEvents`, `createUsbDevice`,
`closeDevice`, `toUinputName` and the numeric constants) are modelled from
the spec and marked as such.
-/

namespace Uinput

/-- Modelled from the spec: kernel event-type constants (`evSyn`, `evKey`,
`evAbs`) are fixed by the kernel ABI; their definitions live outside src/. -/
def evSyn : Nat := 0

/-- Modelled from the spec: the key-event type constant, fixed by the kernel ABI. -/
def evKey : Nat := 1

/-- Modelled from the spec: the absolute-axis event type constant, fixed by the kernel ABI. -/
def evAbs : Nat := 3

/-- Modelled from the spec: `absSize`, the size of the fixed per-axis range
tables — "table size = the maximum possible axis-code value, not the number
of declared axes". -/
def absSize : Nat := 64

/-- Modelled from the spec: the fixed width of the kernel device-name field
("the name is non-empty and fits the fixed field width"). -/
def uinputMaxNameSize : Nat := 80

/-- Modelled from the spec: the "set key bit" control code, fixed by the kernel header. -/
def uiSetKeyBit : Nat := 0x40045565

/-- Modelled from the spec: the "set absolute-axis bit" control code, fixed by the kernel header. -/
def uiSetAbsBit : Nat := 0x40045567

/-- Go `syscall.Timeval`: the timestamp pair of an event record. -/
structure Timeval where
  Sec : Int
  Usec : Int
deriving Repr, DecidableEq

/-- Go `inputEvent` (declared outside src/, layout fixed by the kernel ABI per
the spec): timestamp pair, 16-bit event type (field `Type` in Go, `Typ`
here), 16-bit code, signed 32-bit value. -/
structure inputEvent where
  Time : Timeval
  Typ : Nat
  Code : Nat
  Value : Int
deriving Repr, DecidableEq

/-- Go `inputID` (the synthetic device identity inside the descriptor). -/
structure inputID where
  Bustype : Nat
  Vendor : Nat
  Product : Nat
  Version : Nat
deriving Repr, DecidableEq

/-- Modelled from the spec: the device-descriptor structure `uinputUserDev`
(declared outside src/) — "{name: fixed-width byte buffer, identity:
{bus, vendor, product, version}, per-axis min table, per-axis max table}". -/
structure uinputUserDev where
  Name : List Nat
  ID : inputID
  Absmin : List Int
  Absmax : List Int
deriving Repr, DecidableEq

/-- Go `Axis`: one absolute axis declaration (id, reported min/max range). -/
structure Axis where
  ID : Nat
  Min : Int
  Max : Int
deriving Repr, DecidableEq

/-- Go `Button`: one discrete button declaration. -/
structure Button where
  ID : Nat
deriving Repr, DecidableEq

/-- The error taxonomy of the spec (the Go code returns wrapped error values;
each construction / runtime failure site maps to one taxonomy member). -/
inductive UErr where
  | invalidPath
  | invalidName
  | deviceOpen
  | capabilityRegistration
  | deviceActivation
  | eventWrite
  | closeError
deriving Repr, DecidableEq

/-- Environment of kernel-call outcomes: whether the path check, the handle
open, each capability registration, each set-bit ioctl, the activation call
and the close call succeed. -/
structure Env where
  pathAcceptable : String → Bool
  openOk : Bool
  registerOk : Nat → Bool
  ioctlOk : Nat → Nat → Bool
  createOk : Bool
  closeOk : Bool

/-- One kernel call performed during construction or close. -/
inductive KernelCall where
  | openDevice (path : String)
  | register (ev : Nat)
  | setBit (req : Nat) (code : Nat)
  | createDevice (dev : uinputUserDev)
  | closeDevice
deriving Repr, DecidableEq

/-- Number of successful handle opens in a trace (an `openDevice` call yields
a handle exactly when the environment lets the open succeed). -/
def opensOf (env : Env) (tr : List KernelCall) : Nat :=
  tr.countP fun c => match c with
    | KernelCall.openDevice _ => env.openOk
    | _ => false

/-- Number of handle closes in a trace. -/
def closesOf (tr : List KernelCall) : Nat :=
  tr.countP fun c => match c with
    | KernelCall.closeDevice => true
    | _ => false

/-- Modelled from the spec: `validateDevicePath` (declared outside src/)
checks the device-node path "is acceptable for opening a privileged
character-special file" — an environment/filesystem property — and fails
with `InvalidPathError` otherwise. -/
def validateDevicePath (env : Env) (path : String) : Option UErr :=
  if env.pathAcceptable path then none else some UErr.invalidPath

/-- Modelled from the spec: `validateUinputName` (declared outside src/)
checks the name is non-empty and fits the fixed field width; fails with
`InvalidNameError` otherwise. -/
def validateUinputName (name : List Nat) : Option UErr :=
  if name.length = 0 ∨ uinputMaxNameSize < name.length then some UErr.invalidName
  else none

/-- Modelled from the spec: `toUinputName` (declared outside src/) copies the
validated name into the fixed-width device-name byte buffer, zero-padded. -/
def toUinputName (name : List Nat) : List Nat :=
  name ++ List.replicate (uinputMaxNameSize - name.length) 0

/-- Go `absMin[i] = v` on a `[absSize]int32` array: in-bounds indices update
the table; an out-of-bounds index is a runtime panic (`none`). -/
def setTable (t : List Int) (i : Nat) (v : Int) : Option (List Int) :=
  if i < t.length then some (t.set i v) else none

/-- Result of the button-registration loop: `true` means every declared
button's set-bit ioctl succeeded. -/
def registerButtons (env : Env) : List Button → List KernelCall × Bool
  | [] => ([], true)
  | b :: rest =>
    if env.ioctlOk uiSetKeyBit b.ID then
      let r := registerButtons env rest
      (KernelCall.setBit uiSetKeyBit b.ID :: r.1, r.2)
    else
      ([KernelCall.setBit uiSetKeyBit b.ID, KernelCall.closeDevice], false)

/-- Result of the axis-registration loop: the loop either finishes with the
two populated range tables, aborts after a failed set-bit ioctl (having
closed the handle), or panics on an out-of-range table index. -/
inductive AxisLoop where
  | done (mn mx : List Int)
  | failed
  | panicked
deriving Repr, DecidableEq

/-- Go's axis loop in `createJoystick`: for each axis, the set-bit ioctl is
issued; on failure the handle is closed and construction aborts; on success
the axis's min/max are written into the range tables at index `axis.ID`
(a panic if `axis.ID` is out of bounds for the fixed-size tables). -/
def registerAxes (env : Env) (mn mx : List Int) :
    List Axis → List KernelCall × AxisLoop
  | [] => ([], AxisLoop.done mn mx)
  | a :: rest =>
    if env.ioctlOk uiSetAbsBit a.ID then
      match setTable mn a.ID a.Min, setTable mx a.ID a.Max with
      | some mn', some mx' =>
        let r := registerAxes env mn' mx' rest
        (KernelCall.setBit uiSetAbsBit a.ID :: r.1, r.2)
      | _, _ => ([KernelCall.setBit uiSetAbsBit a.ID], AxisLoop.panicked)
    else
      ([KernelCall.setBit uiSetAbsBit a.ID, KernelCall.closeDevice], AxisLoop.failed)

/-- Result of `createJoystick`: a fully activated device (descriptor as
passed to the activation call, handle left open), an error (mapped to the
spec's taxonomy), or a Go runtime panic. -/
inductive BuildResult where
  | ok (dev : uinputUserDev)
  | err (e : UErr)
  | panicked
deriving Repr, DecidableEq

/-- Go `createJoystick` (src/joystick.go): open the handle; register the key
capability; register each button; register the absolute-axis capability;
register each axis while filling the range tables; build the descriptor with
the fixed identity constants and activate. Every failure after the open
closes the handle before returning the error. `createUsbDevice` (declared
outside src/) is modelled from the spec: it issues the activation call and,
on failure, closes the handle and fails with `DeviceActivationError`. -/
def createJoystick (env : Env) (path : String) (name : List Nat)
    (axes : List Axis) (buttons : List Button) : List KernelCall × BuildResult :=
  if env.openOk then
    if env.registerOk evKey then
      let br := registerButtons env buttons
      if br.2 then
        if env.registerOk evAbs then
          let ar := registerAxes env (List.replicate absSize 0)
            (List.replicate absSize 0) axes
          match ar.2 with
          | AxisLoop.done mn mx =>
            let dev : uinputUserDev :=
              { Name := toUinputName name
                ID := { Bustype := 0x06, Vendor := 0x01
                        Product := 0x02, Version := 0x03 }
                Absmin := mn
                Absmax := mx }
            if env.createOk then
              (KernelCall.openDevice path :: KernelCall.register evKey :: br.1
                ++ KernelCall.register evAbs :: ar.1
                ++ [KernelCall.createDevice dev],
               BuildResult.ok dev)
            else
              (KernelCall.openDevice path :: KernelCall.register evKey :: br.1
                ++ KernelCall.register evAbs :: ar.1
                ++ [KernelCall.createDevice dev, KernelCall.closeDevice],
               BuildResult.err UErr.deviceActivation)
          | AxisLoop.failed =>
            (KernelCall.openDevice path :: KernelCall.register evKey :: br.1
              ++ KernelCall.register evAbs :: ar.1,
             BuildResult.err UErr.capabilityRegistration)
          | AxisLoop.panicked =>
            (KernelCall.openDevice path :: KernelCall.register evKey :: br.1
              ++ KernelCall.register evAbs :: ar.1,
             BuildResult.panicked)
        else
          (KernelCall.openDevice path :: KernelCall.register evKey :: br.1
            ++ [KernelCall.register evAbs, KernelCall.closeDevice],
           BuildResult.err UErr.capabilityRegistration)
      else
        (KernelCall.openDevice path :: KernelCall.register evKey :: br.1,
         BuildResult.err UErr.capabilityRegistration)
    else
      ([KernelCall.openDevice path, KernelCall.register evKey,
        KernelCall.closeDevice],
       BuildResult.err UErr.capabilityRegistration)
  else
    ([KernelCall.openDevice path], BuildResult.err UErr.deviceOpen)

/-- Go `vJoystick`: the live device value — the validated name and the open
device handle (a token here; handle state lives in the kernel trace). -/
structure vJoystick where
  name : List Nat
  deviceFile : Nat
deriving Repr, DecidableEq

/-- Result of `CreateJoystick`. -/
inductive CreateResult where
  | ok (js : vJoystick)
  | err (e : UErr)
  | panicked
deriving Repr, DecidableEq

/-- Go `CreateJoystick` (src/joystick.go): validate the path, validate the
name, then run `createJoystick`; on success wrap the name and handle in a
`vJoystick`. -/
def CreateJoystick (env : Env) (path : String) (name : List Nat)
    (axes : List Axis) (buttons : List Button) : List KernelCall × CreateResult :=
  match validateDevicePath env path with
  | some e => ([], CreateResult.err e)
  | none =>
    match validateUinputName name with
    | some e => ([], CreateResult.err e)
    | none =>
      let r := createJoystick env path name axes buttons
      match r.2 with
      | BuildResult.ok _ => (r.1, CreateResult.ok { name := name, deviceFile := 0 })
      | BuildResult.err e => (r.1, CreateResult.err e)
      | BuildResult.panicked => (r.1, CreateResult.panicked)

/-- Environment of runtime-write outcomes: success of the n-th device-file
write performed inside one operation (0 = event record, 1 = sync event). -/
structure WriteEnv where
  writeOk : Nat → Bool

/-- Modelled from the spec: the synchronization event record that must follow
every runtime event (`syncEvents` is declared outside src/). -/
def syncEvent : inputEvent :=
  { Time := { Sec := 0, Usec := 0 }, Typ := evSyn, Code := 0, Value := 0 }

/-- One `deviceFile.Write` of an encoded event record: the record reaches the
device exactly when the write succeeds; a failed write yields
`EventWriteError`. The record encoder (`inputEventToBuffer`, declared
outside src/) is modelled from the spec as the fixed-layout encoding of the
record, which cannot fail for these fixed-size structures. -/
def writeRecord (env : WriteEnv) (idx : Nat) (e : inputEvent) :
    List inputEvent × Option UErr :=
  if env.writeOk idx then ([e], none) else ([], some UErr.eventWrite)

/-- Modelled from the spec: `syncEvents` (declared outside src/) writes one
synchronization event record to the device handle; fails with
`EventWriteError` if the write fails. -/
def syncEvents (env : WriteEnv) (idx : Nat) : List inputEvent × Option UErr :=
  writeRecord env idx syncEvent

/-- Go `sendAxisEvent` (src/joystick.go): build an absolute-axis event record
(zero-valued timestamp, type `evAbs`, code = axis id, value = position,
unmodified), write it, then write a synchronization event. -/
def sendAxisEvent (env : WriteEnv) (axis : Nat) (pos : Int) :
    List inputEvent × Option UErr :=
  let e : inputEvent :=
    { Time := { Sec := 0, Usec := 0 }, Typ := evAbs, Code := axis, Value := pos }
  match writeRecord env 0 e with
  | (tr, some err) => (tr, some err)
  | (tr, none) =>
    let s := syncEvents env 1
    (tr ++ s.1, s.2)

/-- Go `vJoystick.SetAxis` (value receiver): delegates to `sendAxisEvent` on
the stored device handle; the receiver is returned unchanged. -/
def SetAxis (env : WriteEnv) (vj : vJoystick) (axis : Nat) (x : Int) :
    vJoystick × List inputEvent × Option UErr :=
  (vj, sendAxisEvent env axis x)

/-- Go `vJoystick.SetButton` (value receiver): map the boolean to 1/0, build
a key event record with a zero-filled timestamp, write it, then write a
synchronization event; the receiver is returned unchanged. -/
def SetButton (env : WriteEnv) (vj : vJoystick) (button : Nat) (pressed : Bool) :
    vJoystick × List inputEvent × Option UErr :=
  let state : Int := if pressed then 1 else 0
  let e : inputEvent :=
    { Time := { Sec := 0, Usec := 0 }, Typ := evKey, Code := button, Value := state }
  match writeRecord env 0 e with
  | (tr, some err) => (vj, tr, some err)
  | (tr, none) =>
    let s := syncEvents env 1
    (vj, tr ++ s.1, s.2)

/-- Go `vJoystick.Close` (value receiver): close the device handle
(`closeDevice` is declared outside src/ and modelled from the spec: fails
with `CloseError` if the close system call fails); the receiver is returned
unchanged. -/
def Close (env : Env) (vj : vJoystick) :
    vJoystick × List KernelCall × Option UErr :=
  (vj, [KernelCall.closeDevice],
   if env.closeOk then none else some UErr.closeError)

/-! ## Construction: loop lemmas -/

/-- Traces that end with a handle close: the close is the last kernel call
performed before the error is returned. -/
def EndsWithClose (tr : List KernelCall) : Prop :=
  ∃ pre, tr = pre ++ [KernelCall.closeDevice]

theorem setTable_some {t : List Int} {i : Nat} {v : Int} {t' : List Int}
    (h : setTable t i v = some t') : i < t.length ∧ t' = t.set i v := by
  unfold setTable at h
  split at h <;> simp_all

theorem registerButtons_opens (env : Env) (bs : List Button) :
    opensOf env (registerButtons env bs).1 = 0 := by
  induction bs with
  | nil => simp [registerButtons, opensOf]
  | cons b rest ih =>
    cases hb : env.ioctlOk uiSetKeyBit b.ID <;>
      simp_all [registerButtons, hb, opensOf, List.countP_cons]

theorem registerButtons_trace_of_true (env : Env) (bs : List Button)
    (h : (registerButtons env bs).2 = true) :
    (registerButtons env bs).1 =
      bs.map fun b => KernelCall.setBit uiSetKeyBit b.ID := by
  induction bs with
  | nil => simp [registerButtons]
  | cons b rest ih =>
    cases hb : env.ioctlOk uiSetKeyBit b.ID <;>
      simp_all [registerButtons, hb]

theorem registerButtons_all_of_true (env : Env) (bs : List Button)
    (h : (registerButtons env bs).2 = true) :
    ∀ b ∈ bs, env.ioctlOk uiSetKeyBit b.ID = true := by
  induction bs with
  | nil => simp
  | cons b rest ih =>
    cases hb : env.ioctlOk uiSetKeyBit b.ID <;>
      simp_all [registerButtons, hb]

theorem registerButtons_true_of_all (env : Env) (bs : List Button)
    (h : ∀ b ∈ bs, env.ioctlOk uiSetKeyBit b.ID = true) :
    (registerButtons env bs).2 = true := by
  induction bs with
  | nil => simp [registerButtons]
  | cons b rest ih => simp_all [registerButtons, h b (by simp)]

theorem registerButtons_closes_of_true (env : Env) (bs : List Button)
    (h : (registerButtons env bs).2 = true) :
    closesOf (registerButtons env bs).1 = 0 := by
  rw [registerButtons_trace_of_true env bs h]
  induction bs with
  | nil => simp [closesOf]
  | cons b rest ih => simp [closesOf, List.countP_cons, ih]

theorem registerButtons_failed (env : Env) (bs : List Button)
    (h : (registerButtons env bs).2 = false) :
    closesOf (registerButtons env bs).1 = 1 ∧
    EndsWithClose (registerButtons env bs).1 := by
  induction bs with
  | nil => simp [registerButtons] at h
  | cons b rest ih =>
    cases hb : env.ioctlOk uiSetKeyBit b.ID
    · refine ⟨?_, [KernelCall.setBit uiSetKeyBit b.ID], ?_⟩ <;>
        simp [registerButtons, hb, closesOf, List.countP_cons]
    · simp only [registerButtons, hb, if_true] at h ⊢
      obtain ⟨hc, pre, hpre⟩ := ih h
      refine ⟨?_, KernelCall.setBit uiSetKeyBit b.ID :: pre, ?_⟩
      · simpa [closesOf, List.countP_cons] using hc
      · simp [hpre]

theorem registerAxes_opens (env : Env) (axes : List Axis) :
    ∀ mn mx, opensOf env (registerAxes env mn mx axes).1 = 0 := by
  induction axes with
  | nil => intro mn mx; simp [registerAxes, opensOf]
  | cons a rest ih =>
    intro mn mx
    cases hb : env.ioctlOk uiSetAbsBit a.ID
    · simp [registerAxes, hb, opensOf, List.countP_cons]
    · rcases h1 : setTable mn a.ID a.Min with _ | mn2 <;>
        rcases h2 : setTable mx a.ID a.Max with _ | mx2 <;>
        simp_all [registerAxes, hb, opensOf, List.countP_cons]
      exact ih mn2 mx2

theorem registerAxes_trace_of_done (env : Env) (axes : List Axis) :
    ∀ mn mx mn' mx',
      (registerAxes env mn mx axes).2 = AxisLoop.done mn' mx' →
      (registerAxes env mn mx axes).1 =
        axes.map fun a => KernelCall.setBit uiSetAbsBit a.ID := by
  induction axes with
  | nil => intro mn mx mn' mx' _; simp [registerAxes]
  | cons a rest ih =>
    intro mn mx mn' mx' h
    cases hb : env.ioctlOk uiSetAbsBit a.ID
    · simp [registerAxes, hb] at h
    · rcases h1 : setTable mn a.ID a.Min with _ | mn2 <;>
        rcases h2 : setTable mx a.ID a.Max with _ | mx2 <;>
        simp_all [registerAxes, hb]
      exact ih mn2 mx2 mn' mx' h

theorem registerAxes_all_of_done (env : Env) (axes : List Axis) :
    ∀ mn mx mn' mx',
      (registerAxes env mn mx axes).2 = AxisLoop.done mn' mx' →
      ∀ a ∈ axes, env.ioctlOk uiSetAbsBit a.ID = true := by
  induction axes with
  | nil => simp
  | cons a rest ih =>
    intro mn mx mn' mx' h
    cases hb : env.ioctlOk uiSetAbsBit a.ID
    · simp [registerAxes, hb] at h
    · rcases h1 : setTable mn a.ID a.Min with _ | mn2 <;>
        rcases h2 : setTable mx a.ID a.Max with _ | mx2 <;>
        simp_all [registerAxes, hb]
      exact ih mn2 mx2 mn' mx' h

theorem registerAxes_closes_of_done (env : Env) (axes : List Axis)
    (mn mx mn' mx' : List Int)
    (h : (registerAxes env mn mx axes).2 = AxisLoop.done mn' mx') :
    closesOf (registerAxes env mn mx axes).1 = 0 := by
  rw [registerAxes_trace_of_done env axes mn mx mn' mx' h]
  induction axes with
  | nil => simp [closesOf]
  | cons a rest ih => simp [closesOf, List.countP_cons, ih]

theorem registerAxes_failed (env : Env) (axes : List Axis) :
    ∀ mn mx, (registerAxes env mn mx axes).2 = AxisLoop.failed →
      closesOf (registerAxes env mn mx axes).1 = 1 ∧
      EndsWithClose (registerAxes env mn mx axes).1 := by
  induction axes with
  | nil => intro mn mx h; simp [registerAxes] at h
  | cons a rest ih =>
    intro mn mx h
    cases hb : env.ioctlOk uiSetAbsBit a.ID
    · refine ⟨?_, [KernelCall.setBit uiSetAbsBit a.ID], ?_⟩ <;>
        simp [registerAxes, hb, closesOf, List.countP_cons]
    · rcases h1 : setTable mn a.ID a.Min with _ | mn2 <;>
        rcases h2 : setTable mx a.ID a.Max with _ | mx2 <;>
        simp_all [registerAxes, hb]
      obtain ⟨hc, pre, hpre⟩ := ih mn2 mx2 h
      refine ⟨?_, KernelCall.setBit uiSetAbsBit a.ID :: pre, ?_⟩
      · simpa [closesOf, List.countP_cons] using hc
      · simp [hpre]

/-- Spec-side description of one range-table entry: the value of the last
declared axis with id `i` (left-to-right, later overwrites earlier), or the
default when no declared axis has id `i`. -/
def lastMin (axes : List Axis) (i : Nat) (d : Int) : Int :=
  axes.foldl (fun acc a => if a.ID = i then a.Min else acc) d

/-- Spec-side description of one max-table entry, analogous to `lastMin`. -/
def lastMax (axes : List Axis) (i : Nat) (d : Int) : Int :=
  axes.foldl (fun acc a => if a.ID = i then a.Max else acc) d

theorem lastMin_cons (a : Axis) (rest : List Axis) (i : Nat) (d : Int) :
    lastMin (a :: rest) i d = lastMin rest i (if a.ID = i then a.Min else d) := rfl

theorem lastMax_cons (a : Axis) (rest : List Axis) (i : Nat) (d : Int) :
    lastMax (a :: rest) i d = lastMax rest i (if a.ID = i then a.Max else d) := rfl

theorem lastMin_of_not_declared (axes : List Axis) (i : Nat) (d : Int)
    (h : ∀ a ∈ axes, a.ID ≠ i) : lastMin axes i d = d := by
  induction axes generalizing d with
  | nil => rfl
  | cons a rest ih =>
    rw [lastMin_cons, if_neg (h a (by simp))]
    exact ih d fun a2 ha2 => h a2 (List.mem_cons_of_mem a ha2)

theorem lastMax_of_not_declared (axes : List Axis) (i : Nat) (d : Int)
    (h : ∀ a ∈ axes, a.ID ≠ i) : lastMax axes i d = d := by
  induction axes generalizing d with
  | nil => rfl
  | cons a rest ih =>
    rw [lastMax_cons, if_neg (h a (by simp))]
    exact ih d fun a2 ha2 => h a2 (List.mem_cons_of_mem a ha2)

theorem registerAxes_tables_of_done (env : Env) (axes : List Axis) :
    ∀ mn mx mn' mx',
      (registerAxes env mn mx axes).2 = AxisLoop.done mn' mx' →
      (∀ i, mn'[i]? = mn[i]?.map fun d => lastMin axes i d) ∧
      (∀ i, mx'[i]? = mx[i]?.map fun d => lastMax axes i d) := by
  induction axes with
  | nil =>
    intro mn mx mn' mx' h
    simp only [registerAxes] at h
    cases h
    constructor <;> intro i <;> cases hg : mn[i]? <;> cases hg2 : mx[i]? <;>
      simp_all [lastMin, lastMax]
  | cons a rest ih =>
    intro mn mx mn' mx' h
    cases hb : env.ioctlOk uiSetAbsBit a.ID
    · simp [registerAxes, hb] at h
    · rcases h1 : setTable mn a.ID a.Min with _ | mn2 <;>
        rcases h2 : setTable mx a.ID a.Max with _ | mx2 <;>
        simp_all [registerAxes, hb]
      obtain ⟨hlt1, rfl⟩ := setTable_some h1
      obtain ⟨hlt2, rfl⟩ := setTable_some h2
      obtain ⟨hmn, hmx⟩ := ih _ _ mn' mx' h
      constructor
      · intro i
        rw [hmn i]
        simp only [lastMin_cons]
        rcases eq_or_ne a.ID i with rfl | hne
        · rw [List.getElem?_set_eq_of_lt a.Min hlt1]
          have hv : mn[a.ID]? = some mn[a.ID] := List.getElem?_eq_getElem hlt1
          simp [hv]
        · rw [List.getElem?_set_ne hne]
          cases hg : mn[i]? <;> simp [hg, hne]
      · intro i
        rw [hmx i]
        simp only [lastMax_cons]
        rcases eq_or_ne a.ID i with rfl | hne
        · rw [List.getElem?_set_eq_of_lt a.Max hlt2]
          have hv : mx[a.ID]? = some mx[a.ID] := List.getElem?_eq_getElem hlt2
          simp [hv]
        · rw [List.getElem?_set_ne hne]
          cases hg : mx[i]? <;> simp [hg, hne]

theorem registerAxes_length_of_done (env : Env) (axes : List Axis) :
    ∀ mn mx mn' mx',
      (registerAxes env mn mx axes).2 = AxisLoop.done mn' mx' →
      mn'.length = mn.length ∧ mx'.length = mx.length := by
  induction axes with
  | nil =>
    intro mn mx mn' mx' h
    simp only [registerAxes] at h
    cases h
    exact ⟨rfl, rfl⟩
  | cons a rest ih =>
    intro mn mx mn' mx' h
    cases hb : env.ioctlOk uiSetAbsBit a.ID
    · simp [registerAxes, hb] at h
    · rcases h1 : setTable mn a.ID a.Min with _ | mn2 <;>
        rcases h2 : setTable mx a.ID a.Max with _ | mx2 <;>
        simp_all [registerAxes, hb]
      obtain ⟨hlt1, rfl⟩ := setTable_some h1
      obtain ⟨hlt2, rfl⟩ := setTable_some h2
      obtain ⟨l1, l2⟩ := ih _ _ mn' mx' h
      simp [l1, l2]

/-! ## Handle accounting -/

@[simp] theorem opensOf_nil (env : Env) : opensOf env [] = 0 := rfl

@[simp] theorem opensOf_cons_open (env : Env) (p : String) (tr : List KernelCall) :
    opensOf env (KernelCall.openDevice p :: tr) =
      opensOf env tr + (if env.openOk then 1 else 0) := by
  simp [opensOf, List.countP_cons]

@[simp] theorem opensOf_cons_register (env : Env) (ev : Nat) (tr : List KernelCall) :
    opensOf env (KernelCall.register ev :: tr) = opensOf env tr := by
  simp [opensOf, List.countP_cons]

@[simp] theorem opensOf_cons_setBit (env : Env) (req c : Nat) (tr : List KernelCall) :
    opensOf env (KernelCall.setBit req c :: tr) = opensOf env tr := by
  simp [opensOf, List.countP_cons]

@[simp] theorem opensOf_cons_create (env : Env) (dev : uinputUserDev)
    (tr : List KernelCall) :
    opensOf env (KernelCall.createDevice dev :: tr) = opensOf env tr := by
  simp [opensOf, List.countP_cons]

@[simp] theorem opensOf_cons_close (env : Env) (tr : List KernelCall) :
    opensOf env (KernelCall.closeDevice :: tr) = opensOf env tr := by
  simp [opensOf, List.countP_cons]

@[simp] theorem opensOf_append (env : Env) (l m : List KernelCall) :
    opensOf env (l ++ m) = opensOf env l + opensOf env m := by
  simp [opensOf, List.countP_append]

@[simp] theorem closesOf_nil : closesOf [] = 0 := rfl

@[simp] theorem closesOf_cons_open (p : String) (tr : List KernelCall) :
    closesOf (KernelCall.openDevice p :: tr) = closesOf tr := by
  simp [closesOf, List.countP_cons]

@[simp] theorem closesOf_cons_register (ev : Nat) (tr : List KernelCall) :
    closesOf (KernelCall.register ev :: tr) = closesOf tr := by
  simp [closesOf, List.countP_cons]

@[simp] theorem closesOf_cons_setBit (req c : Nat) (tr : List KernelCall) :
    closesOf (KernelCall.setBit req c :: tr) = closesOf tr := by
  simp [closesOf, List.countP_cons]

@[simp] theorem closesOf_cons_create (dev : uinputUserDev) (tr : List KernelCall) :
    closesOf (KernelCall.createDevice dev :: tr) = closesOf tr := by
  simp [closesOf, List.countP_cons]

@[simp] theorem closesOf_cons_close (tr : List KernelCall) :
    closesOf (KernelCall.closeDevice :: tr) = closesOf tr + 1 := by
  simp [closesOf, List.countP_cons]

@[simp] theorem closesOf_append (l m : List KernelCall) :
    closesOf (l ++ m) = closesOf l + closesOf m := by
  simp [closesOf, List.countP_append]

/-! ## Construction: success and failure analysis -/

theorem createJoystick_ok_spec (env : Env) (path : String) (name : List Nat)
    (axes : List Axis) (buttons : List Button) (dev : uinputUserDev)
    (h : (createJoystick env path name axes buttons).2 = BuildResult.ok dev) :
    env.openOk = true ∧
    env.registerOk evKey = true ∧
    (∀ b ∈ buttons, env.ioctlOk uiSetKeyBit b.ID = true) ∧
    env.registerOk evAbs = true ∧
    (∀ a ∈ axes, env.ioctlOk uiSetAbsBit a.ID = true) ∧
    env.createOk = true ∧
    dev.Name = toUinputName name ∧
    dev.ID = { Bustype := 0x06, Vendor := 0x01, Product := 0x02, Version := 0x03 } ∧
    dev.Absmin.length = absSize ∧
    dev.Absmax.length = absSize ∧
    (∀ i, i < absSize →
      dev.Absmin[i]? = some (lastMin axes i 0) ∧
      dev.Absmax[i]? = some (lastMax axes i 0)) ∧
    (createJoystick env path name axes buttons).1 =
      [KernelCall.openDevice path, KernelCall.register evKey] ++
        (buttons.map fun b => KernelCall.setBit uiSetKeyBit b.ID) ++
        [KernelCall.register evAbs] ++
        (axes.map fun a => KernelCall.setBit uiSetAbsBit a.ID) ++
        [KernelCall.createDevice dev] := by
  cases hOpen : env.openOk
  · simp [createJoystick, hOpen] at h
  cases hKey : env.registerOk evKey
  · simp [createJoystick, hOpen, hKey] at h
  cases hbr : (registerButtons env buttons).2
  · simp [createJoystick, hOpen, hKey, hbr] at h
  cases hAbs : env.registerOk evAbs
  · simp [createJoystick, hOpen, hKey, hbr, hAbs] at h
  cases har : (registerAxes env (List.replicate absSize 0)
      (List.replicate absSize 0) axes).2 with
  | failed => simp [createJoystick, hOpen, hKey, hbr, hAbs, har] at h
  | panicked => simp [createJoystick, hOpen, hKey, hbr, hAbs, har] at h
  | done mn' mx' =>
    cases hCreate : env.createOk
    · simp [createJoystick, hOpen, hKey, hbr, hAbs, har, hCreate] at h
    · have hdev : dev =
          { Name := toUinputName name
            ID := { Bustype := 0x06, Vendor := 0x01, Product := 0x02, Version := 0x03 }
            Absmin := mn'
            Absmax := mx' } := by
        simp [createJoystick, hOpen, hKey, hbr, hAbs, har, hCreate] at h
        exact h.symm
      obtain ⟨hlen1, hlen2⟩ :=
        registerAxes_length_of_done env axes _ _ mn' mx' har
      obtain ⟨htab1, htab2⟩ :=
        registerAxes_tables_of_done env axes _ _ mn' mx' har
      refine ⟨rfl, rfl, registerButtons_all_of_true env buttons hbr, rfl,
        registerAxes_all_of_done env axes _ _ mn' mx' har, rfl,
        by simp [hdev], by simp [hdev], ?_, ?_, ?_, ?_⟩
      · simp [hdev, hlen1]
      · simp [hdev, hlen2]
      · intro i hi
        have hrep : (List.replicate absSize (0 : Int))[i]? = some 0 := by
          simp [List.getElem?_replicate, hi]
        constructor
        · simp only [hdev]
          rw [htab1 i, hrep]
          rfl
        · simp only [hdev]
          rw [htab2 i, hrep]
          rfl
      · have hbt := registerButtons_trace_of_true env buttons hbr
        have hat := registerAxes_trace_of_done env axes _ _ mn' mx' har
        simp [createJoystick, hOpen, hKey, hbr, hAbs, har, hCreate, hbt, hat, hdev]

theorem createJoystick_err_spec (env : Env) (path : String) (name : List Nat)
    (axes : List Axis) (buttons : List Button) (e : UErr)
    (h : (createJoystick env path name axes buttons).2 = BuildResult.err e) :
    opensOf env (createJoystick env path name axes buttons).1 =
      closesOf (createJoystick env path name axes buttons).1 ∧
    (env.openOk = true →
      EndsWithClose (createJoystick env path name axes buttons).1) := by
  cases hOpen : env.openOk
  · constructor
    · simp [createJoystick, hOpen]
    · intro hcon
      simp [hOpen] at hcon
  cases hKey : env.registerOk evKey
  · constructor
    · simp [createJoystick, hOpen, hKey]
    · intro _
      exact ⟨[KernelCall.openDevice path, KernelCall.register evKey],
        by simp [createJoystick, hOpen, hKey]⟩
  cases hbr : (registerButtons env buttons).2
  · obtain ⟨hbc, pre, hpre⟩ := registerButtons_failed env buttons hbr
    have hbo := registerButtons_opens env buttons
    constructor
    · simp [createJoystick, hOpen, hKey, hbr, hbc, hbo]
    · intro _
      exact ⟨KernelCall.openDevice path :: KernelCall.register evKey :: pre,
        by simp [createJoystick, hOpen, hKey, hbr, hpre]⟩
  cases hAbs : env.registerOk evAbs
  · have hbc := registerButtons_closes_of_true env buttons hbr
    have hbo := registerButtons_opens env buttons
    constructor
    · simp [createJoystick, hOpen, hKey, hbr, hAbs, hbc, hbo]
    · intro _
      exact ⟨KernelCall.openDevice path :: KernelCall.register evKey ::
        (registerButtons env buttons).1 ++ [KernelCall.register evAbs],
        by simp [createJoystick, hOpen, hKey, hbr, hAbs]⟩
  cases har : (registerAxes env (List.replicate absSize 0)
      (List.replicate absSize 0) axes).2 with
  | panicked => simp [createJoystick, hOpen, hKey, hbr, hAbs, har] at h
  | failed =>
    obtain ⟨hac, pre, hpre⟩ := registerAxes_failed env axes _ _ har
    have hbc := registerButtons_closes_of_true env buttons hbr
    have hbo := registerButtons_opens env buttons
    have hao := registerAxes_opens env axes (List.replicate absSize 0)
      (List.replicate absSize 0)
    constructor
    · simp [createJoystick, hOpen, hKey, hbr, hAbs, har, hac, hbc, hbo, hao]
    · intro _
      exact ⟨KernelCall.openDevice path :: KernelCall.register evKey ::
        (registerButtons env buttons).1 ++ KernelCall.register evAbs :: pre,
        by simp [createJoystick, hOpen, hKey, hbr, hAbs, har, hpre]⟩
  | done mn' mx' =>
    cases hCreate : env.createOk
    · have hbc := registerButtons_closes_of_true env buttons hbr
      have hbo := registerButtons_opens env buttons
      have hac := registerAxes_closes_of_done env axes _ _ mn' mx' har
      have hao := registerAxes_opens env axes (List.replicate absSize 0)
        (List.replicate absSize 0)
      constructor
      · simp [createJoystick, hOpen, hKey, hbr, hAbs, har, hCreate,
          hbc, hbo, hac, hao]
      · intro _
        refine ⟨KernelCall.openDevice path :: KernelCall.register evKey ::
          (registerButtons env buttons).1 ++ KernelCall.register evAbs ::
          (registerAxes env (List.replicate absSize 0)
            (List.replicate absSize 0) axes).1 ++
          [KernelCall.createDevice
            { Name := toUinputName name
              ID := { Bustype := 0x06, Vendor := 0x01
                      Product := 0x02, Version := 0x03 }
              Absmin := mn'
              Absmax := mx' }], ?_⟩
        simp [createJoystick, hOpen, hKey, hbr, hAbs, har, hCreate]
    · simp [createJoystick, hOpen, hKey, hbr, hAbs, har, hCreate] at h

/-! ## Runtime event emission -/

/-- Environment in which every device-file write succeeds (used by witnesses). -/
def allWrites : WriteEnv := ⟨fun _ => true⟩

/-- C2: for every axis id and every signed value `x`, `SetAxis` (via
`sendAxisEvent`) writes exactly one event record with type `evAbs`, code =
the axis id and value = `x` unmodified (no clamping against any declared
min/max — the operation never consults a range), then one synchronization
event, and returns no error. -/
theorem setAxis_emits_abs_and_sync (env : WriteEnv) (vj : vJoystick)
    (axis : Nat) (x : Int)
    (h0 : env.writeOk 0 = true) (h1 : env.writeOk 1 = true) :
    (SetAxis env vj axis x).2 =
      ([{ Time := { Sec := 0, Usec := 0 }, Typ := evAbs, Code := axis, Value := x },
        syncEvent], none) := by
  simp [SetAxis, sendAxisEvent, writeRecord, syncEvents, h0, h1]

/-- Witness for C2 at a concrete out-of-range-looking value. -/
theorem setAxis_emits_abs_and_sync_witness :
    (SetAxis allWrites { name := [84], deviceFile := 0 } 5 123456).2 =
      ([{ Time := { Sec := 0, Usec := 0 }, Typ := evAbs, Code := 5, Value := 123456 },
        syncEvent], none) :=
  setAxis_emits_abs_and_sync allWrites { name := [84], deviceFile := 0 } 5 123456 rfl rfl

/-- C3: `SetButton` maps `true` to value 1 and `false` to value 0, writes one
key event record (type `evKey`, code = button id, zero-filled timestamp)
followed by one synchronization event; two consecutive calls with `true`
then `false` produce exactly the four records key(1), sync, key(0), sync —
no coalescing. -/
theorem setButton_press_release (env env2 : WriteEnv) (vj : vJoystick)
    (button : Nat)
    (h0 : env.writeOk 0 = true) (h1 : env.writeOk 1 = true)
    (h2 : env2.writeOk 0 = true) (h3 : env2.writeOk 1 = true) :
    (SetButton env vj button true).2 =
      ([{ Time := { Sec := 0, Usec := 0 }, Typ := evKey, Code := button, Value := 1 },
        syncEvent], none) ∧
    (SetButton env2 vj button false).2 =
      ([{ Time := { Sec := 0, Usec := 0 }, Typ := evKey, Code := button, Value := 0 },
        syncEvent], none) ∧
    (SetButton env vj button true).2.1 ++ (SetButton env2 vj button false).2.1 =
      [{ Time := { Sec := 0, Usec := 0 }, Typ := evKey, Code := button, Value := 1 },
       syncEvent,
       { Time := { Sec := 0, Usec := 0 }, Typ := evKey, Code := button, Value := 0 },
       syncEvent] := by
  refine ⟨?_, ?_, ?_⟩ <;>
    simp [SetButton, writeRecord, syncEvents, h0, h1, h2, h3]

/-- Witness for C3 at button id 5. -/
theorem setButton_press_release_witness :
    (SetButton allWrites { name := [84], deviceFile := 0 } 5 true).2 =
      ([{ Time := { Sec := 0, Usec := 0 }, Typ := evKey, Code := 5, Value := 1 },
        syncEvent], none) ∧
    (SetButton allWrites { name := [84], deviceFile := 0 } 5 false).2 =
      ([{ Time := { Sec := 0, Usec := 0 }, Typ := evKey, Code := 5, Value := 0 },
        syncEvent], none) ∧
    (SetButton allWrites { name := [84], deviceFile := 0 } 5 true).2.1 ++
      (SetButton allWrites { name := [84], deviceFile := 0 } 5 false).2.1 =
      [{ Time := { Sec := 0, Usec := 0 }, Typ := evKey, Code := 5, Value := 1 },
       syncEvent,
       { Time := { Sec := 0, Usec := 0 }, Typ := evKey, Code := 5, Value := 0 },
       syncEvent] :=
  setButton_press_release allWrites allWrites { name := [84], deviceFile := 0 } 5
    rfl rfl rfl rfl

/-- C7: `SetAxis` and `SetButton` return no error exactly when both the
event-record write and the synchronization write succeed, and return
`EventWriteError` exactly when either write fails. -/
theorem event_write_error_iff (env : WriteEnv) (vj : vJoystick)
    (axis button : Nat) (x : Int) (pressed : Bool) :
    ((SetAxis env vj axis x).2.2 = none ↔
      (env.writeOk 0 = true ∧ env.writeOk 1 = true)) ∧
    ((SetAxis env vj axis x).2.2 = some UErr.eventWrite ↔
      (env.writeOk 0 = false ∨ env.writeOk 1 = false)) ∧
    ((SetButton env vj button pressed).2.2 = none ↔
      (env.writeOk 0 = true ∧ env.writeOk 1 = true)) ∧
    ((SetButton env vj button pressed).2.2 = some UErr.eventWrite ↔
      (env.writeOk 0 = false ∨ env.writeOk 1 = false)) := by
  cases h0 : env.writeOk 0 <;> cases h1 : env.writeOk 1 <;>
    simp [SetAxis, SetButton, sendAxisEvent, writeRecord, syncEvents, h0, h1]

/-- C10: `SetAxis`, `SetButton` and `Close` leave the joystick value itself
unchanged — the stored name and the device-handle field are exactly those
set by construction (the Go methods use a value receiver and assign no
field). -/
theorem operations_preserve_joystick (wenv : WriteEnv) (env : Env)
    (vj : vJoystick) (axis button : Nat) (x : Int) (pressed : Bool) :
    (SetAxis wenv vj axis x).1 = vj ∧
    (SetButton wenv vj button pressed).1 = vj ∧
    (Close env vj).1 = vj ∧
    (SetButton wenv vj button pressed).1.name = vj.name ∧
    (SetButton wenv vj button pressed).1.deviceFile = vj.deviceFile := by
  cases h0 : wenv.writeOk 0 <;>
    simp [SetAxis, SetButton, Close, writeRecord, syncEvents, h0]

/-! ## Kernel conformance: axis codes outside the valid range -/

/-- Kernel-conformant environment: the kernel rejects every
set-absolute-axis-bit control call whose axis code is at least `absSize`
(outside the valid axis-code range). -/
def Env.conformant (env : Env) : Prop :=
  ∀ c, absSize ≤ c → env.ioctlOk uiSetAbsBit c = false

theorem registerAxes_no_panic (env : Env) (hc : Env.conformant env)
    (axes : List Axis) :
    ∀ mn mx, mn.length = absSize → mx.length = absSize →
      (registerAxes env mn mx axes).2 ≠ AxisLoop.panicked := by
  induction axes with
  | nil => intro mn mx _ _; simp [registerAxes]
  | cons a rest ih =>
    intro mn mx hmn hmx
    cases hb : env.ioctlOk uiSetAbsBit a.ID
    · simp [registerAxes, hb]
    · have ha : a.ID < absSize := by
        by_contra hcon
        rw [hc a.ID (Nat.le_of_not_lt hcon)] at hb
        exact Bool.false_ne_true hb
      have h1 : setTable mn a.ID a.Min = some (mn.set a.ID a.Min) := by
        simp [setTable, hmn, ha]
      have h2 : setTable mx a.ID a.Max = some (mx.set a.ID a.Max) := by
        simp [setTable, hmx, ha]
      simp only [registerAxes, hb, h1, h2, if_true]
      exact ih _ _ (by simp [hmn]) (by simp [hmx])

theorem registerAxes_failed_of_bad (env : Env) (hc : Env.conformant env)
    (hgood : ∀ c, c < absSize → env.ioctlOk uiSetAbsBit c = true)
    (axes : List Axis) :
    ∀ mn mx, mn.length = absSize → mx.length = absSize →
      (∃ a ∈ axes, absSize ≤ a.ID) →
      (registerAxes env mn mx axes).2 = AxisLoop.failed := by
  induction axes with
  | nil => intro mn mx _ _ hex; simp at hex
  | cons a rest ih =>
    intro mn mx hmn hmx hex
    by_cases ha : a.ID < absSize
    · have hb := hgood a.ID ha
      have h1 : setTable mn a.ID a.Min = some (mn.set a.ID a.Min) := by
        simp [setTable, hmn, ha]
      have h2 : setTable mx a.ID a.Max = some (mx.set a.ID a.Max) := by
        simp [setTable, hmx, ha]
      simp only [registerAxes, hb, h1, h2, if_true]
      apply ih _ _ (by simp [hmn]) (by simp [hmx])
      obtain ⟨x, hx, hxb⟩ := hex
      rcases List.mem_cons.mp hx with rfl | hxr
      · exact absurd hxb (Nat.not_le.mpr ha)
      · exact ⟨x, hxr, hxb⟩
    · have hb : env.ioctlOk uiSetAbsBit a.ID = false :=
        hc a.ID (Nat.le_of_not_lt ha)
      simp [registerAxes, hb]

/-! ## Concrete environments used by the witnesses -/

/-- Environment in which every kernel call succeeds. -/
def envAllOk : Env :=
  { pathAcceptable := fun _ => true, openOk := true
    registerOk := fun _ => true, ioctlOk := fun _ _ => true
    createOk := true, closeOk := true }

/-- Environment in which everything succeeds except the activation call. -/
def envNoActivate : Env :=
  { pathAcceptable := fun _ => true, openOk := true
    registerOk := fun _ => true, ioctlOk := fun _ _ => true
    createOk := false, closeOk := true }

/-- Environment in which the device-node path is not acceptable. -/
def envBadPath : Env :=
  { pathAcceptable := fun _ => false, openOk := true
    registerOk := fun _ => true, ioctlOk := fun _ _ => true
    createOk := true, closeOk := true }

/-- Kernel-conformant environment: set-absolute-axis-bit calls succeed
exactly for codes inside the valid range; everything else succeeds. -/
def envConformant : Env :=
  { pathAcceptable := fun _ => true, openOk := true
    registerOk := fun _ => true
    ioctlOk := fun req c => if req = uiSetAbsBit then decide (c < absSize) else true
    createOk := true, closeOk := true }

/-- Descriptor produced by a successful construction with name `[84]`, one
axis `{id 0, min -32767, max 32767}` and one button `{id 0}`. -/
def witnessDev : uinputUserDev :=
  { Name := toUinputName [84]
    ID := { Bustype := 0x06, Vendor := 0x01, Product := 0x02, Version := 0x03 }
    Absmin := (List.replicate absSize 0).set 0 (-32767)
    Absmax := (List.replicate absSize 0).set 0 32767 }

/-! ## Claims about construction -/

/-- C1: whenever `CreateJoystick` returns an error — in particular when any
step after the handle open fails (capability registration, button or axis
registration, activation) — the successful handle opens in the performed
kernel-call trace are balanced by closes (no leaked handle), any nonempty
trace under a working open ends with the close (the handle is closed before
the error is returned), and no joystick value escapes to the caller. -/
theorem CreateJoystick_err_releases_handle (env : Env) (path : String)
    (name : List Nat) (axes : List Axis) (buttons : List Button) (e : UErr)
    (h : (CreateJoystick env path name axes buttons).2 = CreateResult.err e) :
    opensOf env (CreateJoystick env path name axes buttons).1 =
      closesOf (CreateJoystick env path name axes buttons).1 ∧
    (env.openOk = true → (CreateJoystick env path name axes buttons).1 ≠ [] →
      EndsWithClose (CreateJoystick env path name axes buttons).1) ∧
    ∀ js, (CreateJoystick env path name axes buttons).2 ≠ CreateResult.ok js := by
  cases hvp : validateDevicePath env path with
  | some e2 =>
    refine ⟨by simp [CreateJoystick, hvp], ?_, ?_⟩
    · intro _ hne
      exact absurd (by simp [CreateJoystick, hvp]) hne
    · intro js
      simp [CreateJoystick, hvp]
  | none =>
    cases hvn : validateUinputName name with
    | some e2 =>
      refine ⟨by simp [CreateJoystick, hvp, hvn], ?_, ?_⟩
      · intro _ hne
        exact absurd (by simp [CreateJoystick, hvp, hvn]) hne
      · intro js
        simp [CreateJoystick, hvp, hvn]
    | none =>
      cases hcr : (createJoystick env path name axes buttons).2 with
      | ok d => simp [CreateJoystick, hvp, hvn, hcr] at h
      | panicked => simp [CreateJoystick, hvp, hvn, hcr] at h
      | err e2 =>
        obtain ⟨hbal, hend⟩ :=
          createJoystick_err_spec env path name axes buttons e2 hcr
        refine ⟨by simp [CreateJoystick, hvp, hvn, hcr, hbal], ?_, ?_⟩
        · intro hOpen _
          have := hend hOpen
          simpa [CreateJoystick, hvp, hvn, hcr] using this
        · intro js
          simp [CreateJoystick, hvp, hvn, hcr]

/-- Witness for C1: activation fails, everything earlier succeeds. -/
theorem CreateJoystick_err_releases_handle_witness :
    opensOf envNoActivate
        (CreateJoystick envNoActivate "/dev/uinput" [84]
          [{ ID := 0, Min := -32767, Max := 32767 }] [{ ID := 0 }]).1 =
      closesOf (CreateJoystick envNoActivate "/dev/uinput" [84]
          [{ ID := 0, Min := -32767, Max := 32767 }] [{ ID := 0 }]).1 ∧
    (envNoActivate.openOk = true →
      (CreateJoystick envNoActivate "/dev/uinput" [84]
        [{ ID := 0, Min := -32767, Max := 32767 }] [{ ID := 0 }]).1 ≠ [] →
      EndsWithClose (CreateJoystick envNoActivate "/dev/uinput" [84]
        [{ ID := 0, Min := -32767, Max := 32767 }] [{ ID := 0 }]).1) ∧
    ∀ js, (CreateJoystick envNoActivate "/dev/uinput" [84]
        [{ ID := 0, Min := -32767, Max := 32767 }] [{ ID := 0 }]).2 ≠
      CreateResult.ok js :=
  CreateJoystick_err_releases_handle envNoActivate "/dev/uinput" [84]
    [{ ID := 0, Min := -32767, Max := 32767 }] [{ ID := 0 }]
    UErr.deviceActivation (by decide)

/-- C4: `CreateJoystick` validates its inputs before any kernel call and in
a fixed order: an unacceptable path fails with `InvalidPathError` with an
empty kernel-call trace (no handle opened), whatever the name; an acceptable
path with an empty or over-length name fails with `InvalidNameError`, again
with an empty trace. -/
theorem CreateJoystick_validates_first (env : Env) (path : String)
    (name : List Nat) (axes : List Axis) (buttons : List Button) :
    (env.pathAcceptable path = false →
      CreateJoystick env path name axes buttons =
        ([], CreateResult.err UErr.invalidPath)) ∧
    (env.pathAcceptable path = true →
      (name.length = 0 ∨ uinputMaxNameSize < name.length) →
      CreateJoystick env path name axes buttons =
        ([], CreateResult.err UErr.invalidName)) := by
  constructor
  · intro hp
    simp [CreateJoystick, validateDevicePath, hp]
  · intro hp hn
    have hn2 : name = [] ∨ uinputMaxNameSize < name.length := by
      rcases hn with hn | hn
      · exact Or.inl (List.length_eq_zero.mp hn)
      · exact Or.inr hn
    simp [CreateJoystick, validateDevicePath, validateUinputName, hp, hn2]

/-- Witness for C4: a rejected path (with an invalid name present, showing
the path check comes first), and an accepted path with an empty name. -/
theorem CreateJoystick_validates_first_witness :
    CreateJoystick envBadPath "nope" [] [] [] =
      ([], CreateResult.err UErr.invalidPath) ∧
    CreateJoystick envAllOk "/dev/uinput" [] [] [] =
      ([], CreateResult.err UErr.invalidName) :=
  ⟨(CreateJoystick_validates_first envBadPath "nope" [] [] []).1 rfl,
   (CreateJoystick_validates_first envAllOk "/dev/uinput" [] [] []).2 rfl
     (Or.inl rfl)⟩

/-- C5: a successful construction performs exactly this kernel-call sequence
in order — open, register the key capability, each declared button's
set-bit call in declaration order, register the absolute-axis capability,
each declared axis's set-bit call in declaration order, the single
activation call — and success requires every one of those calls to succeed,
so any single failure aborts the whole construction. -/
theorem createJoystick_call_order (env : Env) (path : String) (name : List Nat)
    (axes : List Axis) (buttons : List Button) (dev : uinputUserDev)
    (h : (createJoystick env path name axes buttons).2 = BuildResult.ok dev) :
    (createJoystick env path name axes buttons).1 =
      [KernelCall.openDevice path, KernelCall.register evKey] ++
        (buttons.map fun b => KernelCall.setBit uiSetKeyBit b.ID) ++
        [KernelCall.register evAbs] ++
        (axes.map fun a => KernelCall.setBit uiSetAbsBit a.ID) ++
        [KernelCall.createDevice dev] ∧
    env.openOk = true ∧
    env.registerOk evKey = true ∧
    (∀ b ∈ buttons, env.ioctlOk uiSetKeyBit b.ID = true) ∧
    env.registerOk evAbs = true ∧
    (∀ a ∈ axes, env.ioctlOk uiSetAbsBit a.ID = true) ∧
    env.createOk = true := by
  obtain ⟨h1, h2, h3, h4, h5, h6, _, _, _, _, _, h12⟩ :=
    createJoystick_ok_spec env path name axes buttons dev h
  exact ⟨h12, h1, h2, h3, h4, h5, h6⟩

/-- Witness for C5 with one axis and one button. -/
theorem createJoystick_call_order_witness :
    (createJoystick envAllOk "/dev/uinput" [84]
        [{ ID := 0, Min := -32767, Max := 32767 }] [{ ID := 0 }]).1 =
      [KernelCall.openDevice "/dev/uinput", KernelCall.register evKey] ++
        ([({ ID := 0 } : Button)].map fun b => KernelCall.setBit uiSetKeyBit b.ID) ++
        [KernelCall.register evAbs] ++
        ([({ ID := 0, Min := -32767, Max := 32767 } : Axis)].map
          fun a => KernelCall.setBit uiSetAbsBit a.ID) ++
        [KernelCall.createDevice witnessDev] ∧
    envAllOk.openOk = true ∧
    envAllOk.registerOk evKey = true ∧
    (∀ b ∈ [({ ID := 0 } : Button)], envAllOk.ioctlOk uiSetKeyBit b.ID = true) ∧
    envAllOk.registerOk evAbs = true ∧
    (∀ a ∈ [({ ID := 0, Min := -32767, Max := 32767 } : Axis)],
      envAllOk.ioctlOk uiSetAbsBit a.ID = true) ∧
    envAllOk.createOk = true :=
  createJoystick_call_order envAllOk "/dev/uinput" [84]
    [{ ID := 0, Min := -32767, Max := 32767 }] [{ ID := 0 }] witnessDev (by decide)

theorem lastMin_append (l1 l2 : List Axis) (i : Nat) (d : Int) :
    lastMin (l1 ++ l2) i d = lastMin l2 i (lastMin l1 i d) := by
  simp [lastMin, List.foldl_append]

theorem lastMax_append (l1 l2 : List Axis) (i : Nat) (d : Int) :
    lastMax (l1 ++ l2) i d = lastMax l2 i (lastMax l1 i d) := by
  simp [lastMax, List.foldl_append]

/-- C6: on every successful construction the two range tables have length
`absSize` — the maximum-axis-code bound, independent of how many axes were
declared; the entry at index `i` is the min/max of the last declaration with
id `i` (a later duplicate overwrites the earlier declaration's entry), and
entries at undeclared axis ids remain zero. -/
theorem createJoystick_range_tables (env : Env) (path : String)
    (name : List Nat) (axes : List Axis) (buttons : List Button)
    (dev : uinputUserDev)
    (h : (createJoystick env path name axes buttons).2 = BuildResult.ok dev) :
    dev.Absmin.length = absSize ∧
    dev.Absmax.length = absSize ∧
    (∀ i, i < absSize →
      dev.Absmin[i]? = some (lastMin axes i 0) ∧
      dev.Absmax[i]? = some (lastMax axes i 0)) ∧
    (∀ i, i < absSize → (∀ a ∈ axes, a.ID ≠ i) →
      dev.Absmin[i]? = some 0 ∧ dev.Absmax[i]? = some 0) ∧
    (∀ pre a post, axes = pre ++ a :: post →
      (∀ a2 ∈ post, a2.ID ≠ a.ID) → a.ID < absSize →
      dev.Absmin[a.ID]? = some a.Min ∧ dev.Absmax[a.ID]? = some a.Max) := by
  obtain ⟨_, _, _, _, _, _, _, _, h9, h10, h11, _⟩ :=
    createJoystick_ok_spec env path name axes buttons dev h
  refine ⟨h9, h10, h11, ?_, ?_⟩
  · intro i hi hnd
    obtain ⟨hm1, hm2⟩ := h11 i hi
    rw [hm1, hm2, lastMin_of_not_declared axes i 0 hnd,
      lastMax_of_not_declared axes i 0 hnd]
    exact ⟨rfl, rfl⟩
  · intro pre a post hax hpost ha
    obtain ⟨hm1, hm2⟩ := h11 a.ID ha
    rw [hm1, hm2, hax, lastMin_append, lastMax_append, lastMin_cons,
      lastMax_cons, if_pos rfl, if_pos rfl,
      lastMin_of_not_declared post a.ID a.Min hpost,
      lastMax_of_not_declared post a.ID a.Max hpost]
    exact ⟨rfl, rfl⟩

/-- Witness for C6: one declared axis at id 0, undeclared id 1, with the
duplicate-form conjunct applicable to the singleton split. -/
theorem createJoystick_range_tables_witness :
    witnessDev.Absmin.length = absSize ∧
    witnessDev.Absmax.length = absSize ∧
    (∀ i, i < absSize →
      witnessDev.Absmin[i]? =
        some (lastMin [{ ID := 0, Min := -32767, Max := 32767 }] i 0) ∧
      witnessDev.Absmax[i]? =
        some (lastMax [{ ID := 0, Min := -32767, Max := 32767 }] i 0)) ∧
    (∀ i, i < absSize →
      (∀ a ∈ [({ ID := 0, Min := -32767, Max := 32767 } : Axis)], a.ID ≠ i) →
      witnessDev.Absmin[i]? = some 0 ∧ witnessDev.Absmax[i]? = some 0) ∧
    (∀ pre a post,
      [({ ID := 0, Min := -32767, Max := 32767 } : Axis)] = pre ++ a :: post →
      (∀ a2 ∈ post, a2.ID ≠ a.ID) → a.ID < absSize →
      witnessDev.Absmin[a.ID]? = some a.Min ∧
      witnessDev.Absmax[a.ID]? = some a.Max) :=
  createJoystick_range_tables envAllOk "/dev/uinput" [84]
    [{ ID := 0, Min := -32767, Max := 32767 }] [{ ID := 0 }] witnessDev (by decide)

/-- C8: the descriptor handed to the activation call — the last kernel call
of every successful construction, whatever the inputs — carries the
validated name copied into the fixed-width name buffer, the fixed synthetic
identity bus-type 0x06 / vendor 0x01 / product 0x02 / version 0x03, and the
two range tables sized to the maximum axis code. -/
theorem createJoystick_descriptor (env : Env) (path : String)
    (name : List Nat) (axes : List Axis) (buttons : List Button)
    (dev : uinputUserDev)
    (h : (createJoystick env path name axes buttons).2 = BuildResult.ok dev) :
    dev.Name = toUinputName name ∧
    dev.ID.Bustype = 0x06 ∧ dev.ID.Vendor = 0x01 ∧
    dev.ID.Product = 0x02 ∧ dev.ID.Version = 0x03 ∧
    dev.Absmin.length = absSize ∧ dev.Absmax.length = absSize ∧
    ∃ pre, (createJoystick env path name axes buttons).1 =
      pre ++ [KernelCall.createDevice dev] := by
  obtain ⟨_, _, _, _, _, _, h7, h8, h9, h10, _, h12⟩ :=
    createJoystick_ok_spec env path name axes buttons dev h
  refine ⟨h7, by rw [h8], by rw [h8], by rw [h8], by rw [h8], h9, h10,
    [KernelCall.openDevice path, KernelCall.register evKey] ++
      (buttons.map fun b => KernelCall.setBit uiSetKeyBit b.ID) ++
      [KernelCall.register evAbs] ++
      (axes.map fun a => KernelCall.setBit uiSetAbsBit a.ID), ?_⟩
  rw [h12]

/-- Witness for C8 on a concrete successful construction. -/
theorem createJoystick_descriptor_witness :
    witnessDev.Name = toUinputName [84] ∧
    witnessDev.ID.Bustype = 0x06 ∧ witnessDev.ID.Vendor = 0x01 ∧
    witnessDev.ID.Product = 0x02 ∧ witnessDev.ID.Version = 0x03 ∧
    witnessDev.Absmin.length = absSize ∧ witnessDev.Absmax.length = absSize ∧
    ∃ pre, (createJoystick envAllOk "/dev/uinput" [84]
        [{ ID := 0, Min := -32767, Max := 32767 }] [{ ID := 0 }]).1 =
      pre ++ [KernelCall.createDevice witnessDev] :=
  createJoystick_descriptor envAllOk "/dev/uinput" [84]
    [{ ID := 0, Min := -32767, Max := 32767 }] [{ ID := 0 }] witnessDev (by decide)

/-- C9: under a kernel-conformant environment (every set-absolute-axis-bit
call with a code outside the valid range fails), construction can never
reach the out-of-bounds table write — the `panicked` outcome is unreachable,
i.e. the table writes are only reached for accepted, in-bounds axis ids; and
when every other call succeeds but some declared axis id is out of range,
construction fails with `CapabilityRegistrationError`, handle opens are
balanced by closes, and the trace ends with the close. -/
theorem createJoystick_rejects_bad_axis (env : Env) (path : String)
    (name : List Nat) (axes : List Axis) (buttons : List Button)
    (hc : Env.conformant env) :
    (createJoystick env path name axes buttons).2 ≠ BuildResult.panicked ∧
    (env.openOk = true → env.registerOk evKey = true →
      (∀ b ∈ buttons, env.ioctlOk uiSetKeyBit b.ID = true) →
      env.registerOk evAbs = true →
      (∀ c, c < absSize → env.ioctlOk uiSetAbsBit c = true) →
      (∃ a ∈ axes, absSize ≤ a.ID) →
      (createJoystick env path name axes buttons).2 =
        BuildResult.err UErr.capabilityRegistration ∧
      opensOf env (createJoystick env path name axes buttons).1 =
        closesOf (createJoystick env path name axes buttons).1 ∧
      EndsWithClose (createJoystick env path name axes buttons).1) := by
  constructor
  · intro hcon
    cases hOpen : env.openOk
    · simp [createJoystick, hOpen] at hcon
    cases hKey : env.registerOk evKey
    · simp [createJoystick, hOpen, hKey] at hcon
    cases hbr : (registerButtons env buttons).2
    · simp [createJoystick, hOpen, hKey, hbr] at hcon
    cases hAbs : env.registerOk evAbs
    · simp [createJoystick, hOpen, hKey, hbr, hAbs] at hcon
    cases har : (registerAxes env (List.replicate absSize 0)
        (List.replicate absSize 0) axes).2 with
    | done mn' mx' =>
      cases hCreate : env.createOk <;>
        simp [createJoystick, hOpen, hKey, hbr, hAbs, har, hCreate] at hcon
    | failed => simp [createJoystick, hOpen, hKey, hbr, hAbs, har] at hcon
    | panicked =>
      exact registerAxes_no_panic env hc axes _ _
        (by simp) (by simp) har
  · intro h1 h2 h3 h4 h5 h6
    have hbr : (registerButtons env buttons).2 = true :=
      registerButtons_true_of_all env buttons h3
    have har : (registerAxes env (List.replicate absSize 0)
        (List.replicate absSize 0) axes).2 = AxisLoop.failed :=
      registerAxes_failed_of_bad env hc h5 axes _ _ (by simp) (by simp) h6
    have hres : (createJoystick env path name axes buttons).2 =
        BuildResult.err UErr.capabilityRegistration := by
      simp [createJoystick, h1, h2, hbr, h4, har]
    obtain ⟨hbal, hend⟩ :=
      createJoystick_err_spec env path name axes buttons _ hres
    exact ⟨hres, hbal, hend h1⟩

/-- Witness for C9: a conformant kernel with one declared axis at the
out-of-range id 70. -/
theorem createJoystick_rejects_bad_axis_witness :
    (createJoystick envConformant "/dev/uinput" [84]
        [{ ID := 70, Min := 0, Max := 1 }] []).2 ≠ BuildResult.panicked ∧
    (envConformant.openOk = true → envConformant.registerOk evKey = true →
      (∀ b ∈ ([] : List Button), envConformant.ioctlOk uiSetKeyBit b.ID = true) →
      envConformant.registerOk evAbs = true →
      (∀ c, c < absSize → envConformant.ioctlOk uiSetAbsBit c = true) →
      (∃ a ∈ [({ ID := 70, Min := 0, Max := 1 } : Axis)], absSize ≤ a.ID) →
      (createJoystick envConformant "/dev/uinput" [84]
          [{ ID := 70, Min := 0, Max := 1 }] []).2 =
        BuildResult.err UErr.capabilityRegistration ∧
      opensOf envConformant (createJoystick envConformant "/dev/uinput" [84]
          [{ ID := 70, Min := 0, Max := 1 }] []).1 =
        closesOf (createJoystick envConformant "/dev/uinput" [84]
          [{ ID := 70, Min := 0, Max := 1 }] []).1 ∧
      EndsWithClose (createJoystick envConformant "/dev/uinput" [84]
          [{ ID := 70, Min := 0, Max := 1 }] []).1) :=
  createJoystick_rejects_bad_axis envConformant "/dev/uinput" [84]
    [{ ID := 70, Min := 0, Max := 1 }] []
    (by intro c hcle
        simp [envConformant, Env.conformant, absSize] at hcle ⊢
        omega)

end Uinput
